import Mathlib

/-!
Shallow embedding of the stress-burnout-detector web client
(src/frontend/src/App.tsx, second revision with coping support, and the
API client module with analyzeJournalEntry and getCopingSuggestion).

The client is a thin layer: a submit handler that sequences two HTTP POST
calls and a handful of UI state setters.  We embed it as a function from
the current input text and an environment (the outcomes of the two
fetches) to a list of events; an event is either a state setter or a
network call.  Folding the events over the initial UI state yields the
final state, and filtering the call events yields the network trace.

JSON numbers are modelled as rationals: this layer performs no arithmetic
on them, it only passes them through.  JavaScript String.prototype.trim is
modelled by jsTrim, which removes leading and trailing whitespace.
-/

/-- JSON numbers as carried by the backend responses; the client never
computes with them. -/
abbrev JsNumber := Rat

/-- Per-sentence sub-result inside sentence_breakdown of AnalyzeResponse. -/
structure SentenceResult where
  sentence : String
  emotion : String
  stress_level : String
  stress_score : JsNumber
  scores : List (String × JsNumber)
deriving Repr, DecidableEq

/-- Response of POST /predict, mirrored from the AnalyzeResponse interface. -/
structure AnalyzeResponse where
  primary_emotion : String
  stress_level : String
  stress_score : JsNumber
  scores : List (String × JsNumber)
  coping_strategy : String
  sentence_breakdown : List SentenceResult
deriving Repr, DecidableEq

/-- Request body of POST /predict. -/
structure AnalyzeRequest where
  text : String
deriving Repr, DecidableEq

/-- Request body of POST /coping, mirrored from the CopingRequest interface. -/
structure CopingRequest where
  journal : String
  primary_emotion : String
  stress_level : String
deriving Repr, DecidableEq

/-- Response of POST /coping. -/
structure CopingResponse where
  coping_text : String
deriving Repr, DecidableEq

/-- An HTTP response as seen through the fetch API: status code, status
text, the body read as text, and the body parsed as JSON of type α. -/
structure HttpResponse (α : Type) where
  status : Nat
  statusText : String
  bodyText : String
  json : α
deriving Repr, DecidableEq

/-- The fetch res.ok flag: status in the inclusive range 200 to 299. -/
def HttpResponse.ok {α : Type} (r : HttpResponse α) : Bool :=
  200 ≤ r.status && r.status ≤ 299

/-- Outcome of one fetch: either the promise rejects (network failure,
malformed JSON) with an error message, or an HTTP response arrives. -/
inductive FetchOutcome (α : Type) where
  | thrown (msg : String)
  | response (r : HttpResponse α)
deriving Repr, DecidableEq

/-- A network call issued by the client: POST /predict or POST /coping,
identified by its endpoint and request body. -/
inductive ApiCall where
  | predict (body : AnalyzeRequest)
  | coping (body : CopingRequest)
deriving Repr, DecidableEq

/-- True exactly on /predict calls. -/
def ApiCall.isPredict : ApiCall → Bool
  | .predict _ => true
  | .coping _ => false

/-- True exactly on /coping calls. -/
def ApiCall.isCoping : ApiCall → Bool
  | .predict _ => false
  | .coping _ => true

/-- Result part of analyzeJournalEntry: on a response with res.ok false it
throws the message built from the status code and the body text, falling
back to the status text when the body text is empty (the JavaScript
expression errorText || res.statusText); on res.ok it returns the parsed
JSON; a rejected fetch propagates its own message. -/
def analyzeResult (o : FetchOutcome AnalyzeResponse) :
    Except String AnalyzeResponse :=
  match o with
  | .thrown msg => .error msg
  | .response res =>
    if res.ok then .ok res.json
    else .error ("API error " ++ toString res.status ++ ": " ++
      (if res.bodyText = "" then res.statusText else res.bodyText))

/-- analyzeJournalEntry from the API client: issues POST /predict with
body containing the text, and yields the result of analyzeResult. -/
def analyzeJournalEntry (text : String) (o : FetchOutcome AnalyzeResponse) :
    ApiCall × Except String AnalyzeResponse :=
  (ApiCall.predict { text := text }, analyzeResult o)

/-- Result part of getCopingSuggestion: on a response with res.ok false it
throws the fixed message, with no status or body detail; on res.ok it
returns the parsed JSON; a rejected fetch propagates its own message. -/
def copingResult (o : FetchOutcome CopingResponse) :
    Except String CopingResponse :=
  match o with
  | .thrown msg => .error msg
  | .response res =>
    if res.ok then .ok res.json
    else .error "Failed to get coping suggestions"

/-- getCopingSuggestion from the API client: issues POST /coping with the
given body, and yields the result of copingResult. -/
def getCopingSuggestion (body : CopingRequest) (o : FetchOutcome CopingResponse) :
    ApiCall × Except String CopingResponse :=
  (ApiCall.coping body, copingResult o)

/-- The two pages of the view. -/
inductive Page where
  | home
  | about
deriving Repr, DecidableEq

/-- The UI state owned by the App component: the six useState cells. -/
structure UIState where
  text : String
  loading : Bool
  error : Option String
  result : Option AnalyzeResponse
  page : Page
  copingText : String
deriving Repr, DecidableEq

/-- One step of the submit handler: a state setter call or a network
call.  setText and setPage are included because the component has those
setters (textarea onChange and the nav buttons), though the submit
handler itself never emits them. -/
inductive Event where
  | setText (v : String)
  | setLoading (v : Bool)
  | setError (v : Option String)
  | setResult (v : Option AnalyzeResponse)
  | setPage (v : Page)
  | setCopingText (v : String)
  | call (c : ApiCall)
deriving Repr, DecidableEq

/-- Effect of one event on the UI state; network calls leave it unchanged. -/
def applyEvent (s : UIState) : Event → UIState
  | .setText v => { s with text := v }
  | .setLoading v => { s with loading := v }
  | .setError v => { s with error := v }
  | .setResult v => { s with result := v }
  | .setPage v => { s with page := v }
  | .setCopingText v => { s with copingText := v }
  | .call _ => s

/-- Run a list of events over a state. -/
def runEvents (s : UIState) (evs : List Event) : UIState :=
  evs.foldl applyEvent s

/-- The environment of one submission: the outcome each of the two fetches
would have if issued. -/
structure Env where
  predict : FetchOutcome AnalyzeResponse
  coping : FetchOutcome CopingResponse
deriving Repr, DecidableEq

/-- JavaScript String.prototype.trim, modelled on the character list:
drop leading and trailing whitespace characters. -/
def jsTrim (s : String) : String :=
  ⟨((s.data.dropWhile Char.isWhitespace).reverse.dropWhile
      Char.isWhitespace).reverse⟩

/-- Message shown by the catch handler: err.message, or the generic
fallback when that message is empty (the JavaScript expression
err.message || fallback). -/
def errorDisplayMessage (msg : String) : String :=
  if msg = "" then "Something went wrong. Please try again." else msg

/-- The handleAnalyze submit handler as an event trace, line by line:
clear error, result and copingText; if the trimmed text is empty set the
validation error and stop; otherwise set loading, call
analyzeJournalEntry, and on success store the result and call
getCopingSuggestion with the journal text and the two fields of the
analyze response; any thrown error is caught into setError via
errorDisplayMessage, and the finally block clears loading. -/
def handleAnalyzeEvents (text : String) (env : Env) : List Event :=
  [Event.setError none, Event.setResult none, Event.setCopingText ""] ++
  if jsTrim text = "" then
    [Event.setError (some "Please write a short journal entry first.")]
  else
    Event.setLoading true ::
    Event.call (analyzeJournalEntry text env.predict).1 ::
    match (analyzeJournalEntry text env.predict).2 with
    | .error msg =>
      [Event.setError (some (errorDisplayMessage msg)),
       Event.setLoading false]
    | .ok data =>
      Event.setResult (some data) ::
      Event.call (getCopingSuggestion
        { journal := text, primary_emotion := data.primary_emotion,
          stress_level := data.stress_level } env.coping).1 ::
      match (getCopingSuggestion
        { journal := text, primary_emotion := data.primary_emotion,
          stress_level := data.stress_level } env.coping).2 with
      | .error msg =>
        [Event.setError (some (errorDisplayMessage msg)),
         Event.setLoading false]
      | .ok coping =>
        [Event.setCopingText coping.coping_text,
         Event.setLoading false]

/-- The submit handler: final UI state after handleAnalyze runs to
completion from state s under environment env. -/
def handleAnalyze (s : UIState) (env : Env) : UIState :=
  runEvents s (handleAnalyzeEvents s.text env)

/-- Project a call event to its call. -/
def callOf : Event → Option ApiCall
  | .call c => some c
  | _ => none

/-- The network calls a submission issues, in order. -/
def networkCalls (text : String) (env : Env) : List ApiCall :=
  (handleAnalyzeEvents text env).filterMap callOf

/-! Helper lemmas: the shape of the event trace in each of the four cases
of a submission (validation failure, analyze failure, coping failure, full
success). -/

theorem analyzeJournalEntry_fst (text : String) (o : FetchOutcome AnalyzeResponse) :
    (analyzeJournalEntry text o).1 = ApiCall.predict { text := text } := rfl

theorem analyzeJournalEntry_snd (text : String) (o : FetchOutcome AnalyzeResponse) :
    (analyzeJournalEntry text o).2 = analyzeResult o := rfl

theorem getCopingSuggestion_fst (body : CopingRequest) (o : FetchOutcome CopingResponse) :
    (getCopingSuggestion body o).1 = ApiCall.coping body := rfl

theorem getCopingSuggestion_snd (body : CopingRequest) (o : FetchOutcome CopingResponse) :
    (getCopingSuggestion body o).2 = copingResult o := rfl

theorem handleAnalyzeEvents_emptyText (text : String) (env : Env)
    (h : jsTrim text = "") :
    handleAnalyzeEvents text env =
      [Event.setError none, Event.setResult none, Event.setCopingText "",
       Event.setError (some "Please write a short journal entry first.")] := by
  simp [handleAnalyzeEvents, h]

theorem handleAnalyzeEvents_analyzeFail (text : String) (env : Env) (msg : String)
    (h : jsTrim text ≠ "") (h2 : analyzeResult env.predict = .error msg) :
    handleAnalyzeEvents text env =
      [Event.setError none, Event.setResult none, Event.setCopingText "",
       Event.setLoading true,
       Event.call (ApiCall.predict { text := text }),
       Event.setError (some (errorDisplayMessage msg)),
       Event.setLoading false] := by
  simp [handleAnalyzeEvents, h, analyzeJournalEntry_fst, analyzeJournalEntry_snd, h2]

theorem handleAnalyzeEvents_copingFail (text : String) (env : Env)
    (data : AnalyzeResponse) (msg : String)
    (h : jsTrim text ≠ "") (h2 : analyzeResult env.predict = .ok data)
    (h3 : copingResult env.coping = .error msg) :
    handleAnalyzeEvents text env =
      [Event.setError none, Event.setResult none, Event.setCopingText "",
       Event.setLoading true,
       Event.call (ApiCall.predict { text := text }),
       Event.setResult (some data),
       Event.call (ApiCall.coping
         ⟨text, data.primary_emotion, data.stress_level⟩),
       Event.setError (some (errorDisplayMessage msg)),
       Event.setLoading false] := by
  simp [handleAnalyzeEvents, h, analyzeJournalEntry_fst, analyzeJournalEntry_snd,
    getCopingSuggestion_fst, getCopingSuggestion_snd, h2, h3]

theorem handleAnalyzeEvents_bothOk (text : String) (env : Env)
    (data : AnalyzeResponse) (coping : CopingResponse)
    (h : jsTrim text ≠ "") (h2 : analyzeResult env.predict = .ok data)
    (h3 : copingResult env.coping = .ok coping) :
    handleAnalyzeEvents text env =
      [Event.setError none, Event.setResult none, Event.setCopingText "",
       Event.setLoading true,
       Event.call (ApiCall.predict { text := text }),
       Event.setResult (some data),
       Event.call (ApiCall.coping
         ⟨text, data.primary_emotion, data.stress_level⟩),
       Event.setCopingText coping.coping_text,
       Event.setLoading false] := by
  simp [handleAnalyzeEvents, h, analyzeJournalEntry_fst, analyzeJournalEntry_snd,
    getCopingSuggestion_fst, getCopingSuggestion_snd, h2, h3]

/-! Concrete sample values, used to instantiate the theorems with
hypotheses. -/

/-- A sample analyze response, shaped like the example of the spec. -/
def sampleAnalyzeResponse : AnalyzeResponse :=
  { primary_emotion := "anxiety", stress_level := "high",
    stress_score := (82 : JsNumber) / 100,
    scores := [("anxiety", (82 : JsNumber) / 100)],
    coping_strategy := "Take a short walk.",
    sentence_breakdown := [] }

/-- A sample coping response. -/
def sampleCopingResponse : CopingResponse :=
  { coping_text := "Try a short breathing exercise." }

/-- A 200 response from /predict. -/
def okPredictResponse : HttpResponse AnalyzeResponse :=
  { status := 200, statusText := "OK", bodyText := "",
    json := sampleAnalyzeResponse }

/-- A 500 response from /predict with a non-empty body. -/
def badPredictResponse : HttpResponse AnalyzeResponse :=
  { status := 500, statusText := "Internal Server Error", bodyText := "boom",
    json := sampleAnalyzeResponse }

/-- A 200 response from /coping. -/
def okCopingResponse : HttpResponse CopingResponse :=
  { status := 200, statusText := "OK", bodyText := "",
    json := sampleCopingResponse }

/-- A 503 response from /coping. -/
def badCopingResponse : HttpResponse CopingResponse :=
  { status := 503, statusText := "Service Unavailable", bodyText := "",
    json := sampleCopingResponse }

/-- A UI state whose input text is non-empty after trimming. -/
def sampleState : UIState :=
  { text := "I feel overwhelmed today", loading := false, error := none,
    result := none, page := Page.home, copingText := "" }

/-- A UI state whose input text is whitespace only. -/
def blankState : UIState :=
  { text := "   ", loading := false, error := none,
    result := none, page := Page.home, copingText := "" }

/-- Environment where both calls succeed. -/
def happyEnv : Env :=
  { predict := .response okPredictResponse,
    coping := .response okCopingResponse }

/-- Environment where /predict fails with a 500. -/
def predictFailEnv : Env :=
  { predict := .response badPredictResponse,
    coping := .response okCopingResponse }

/-- Environment where /predict succeeds and /coping fails with a 503. -/
def copingFailEnv : Env :=
  { predict := .response okPredictResponse,
    coping := .response badCopingResponse }

/-! Claim theorems. -/

/-- C5: when the trimmed text is empty the submit operation sets the fixed
validation message into the error state and issues no network call. -/
theorem empty_text_no_network (s : UIState) (env : Env)
    (h : jsTrim s.text = "") :
    (handleAnalyze s env).error =
      some "Please write a short journal entry first." ∧
    networkCalls s.text env = [] := by
  constructor <;>
    simp [handleAnalyze, networkCalls, handleAnalyzeEvents_emptyText s.text env h,
      runEvents, applyEvent, callOf]

/-- Witness for empty_text_no_network at the whitespace-only state. -/
theorem empty_text_no_network_witness :
    (handleAnalyze blankState happyEnv).error =
      some "Please write a short journal entry first." ∧
    networkCalls blankState.text happyEnv = [] :=
  empty_text_no_network blankState happyEnv (by decide)

/-- C6: on a /predict response with status outside the success range,
analyzeJournalEntry fails with a message carrying the status code and the
body text, and the status text takes the place of the body text when the
body is empty. -/
theorem analyze_error_message (text : String)
    (res : HttpResponse AnalyzeResponse) (h : res.ok = false) :
    (res.bodyText ≠ "" →
      (analyzeJournalEntry text (.response res)).2 =
        Except.error ("API error " ++ toString res.status ++ ": " ++
          res.bodyText)) ∧
    (res.bodyText = "" →
      (analyzeJournalEntry text (.response res)).2 =
        Except.error ("API error " ++ toString res.status ++ ": " ++
          res.statusText)) := by
  constructor <;> intro hb <;>
    simp [analyzeJournalEntry_snd, analyzeResult, h, hb]

/-- Witness for analyze_error_message at a 500 response with body boom. -/
theorem analyze_error_message_witness :
    badPredictResponse.ok = false ∧
    ((badPredictResponse.bodyText ≠ "" →
      (analyzeJournalEntry "hello" (.response badPredictResponse)).2 =
        Except.error ("API error " ++ toString badPredictResponse.status ++
          ": " ++ badPredictResponse.bodyText)) ∧
    (badPredictResponse.bodyText = "" →
      (analyzeJournalEntry "hello" (.response badPredictResponse)).2 =
        Except.error ("API error " ++ toString badPredictResponse.status ++
          ": " ++ badPredictResponse.statusText))) :=
  ⟨by decide, analyze_error_message "hello" badPredictResponse (by decide)⟩

/-- C7: on a /coping response with status outside the success range,
getCopingSuggestion fails with one fixed message; the right hand side does
not depend on the response, so the message carries neither the status code
nor the body and is the same for every non-success status. -/
theorem coping_error_message (body : CopingRequest)
    (res : HttpResponse CopingResponse) (h : res.ok = false) :
    (getCopingSuggestion body (.response res)).2 =
      Except.error "Failed to get coping suggestions" := by
  simp [getCopingSuggestion_snd, copingResult, h]

/-- Witness for coping_error_message at a 503 response. -/
theorem coping_error_message_witness :
    (getCopingSuggestion ⟨"j", "anxiety", "high"⟩
      (.response badCopingResponse)).2 =
      Except.error "Failed to get coping suggestions" :=
  coping_error_message ⟨"j", "anxiety", "high"⟩ badCopingResponse (by decide)

/-- C1: for every submission whose trimmed text is non-empty, the network
trace holds exactly one /predict call, its body is the submitted text, it
is the first call issued (so it comes before any /coping call), and a
/coping call can be present only when analyzeJournalEntry returned
successfully. -/
theorem predict_called_once_before_coping (s : UIState) (env : Env)
    (h : jsTrim s.text ≠ "") :
    (networkCalls s.text env).countP ApiCall.isPredict = 1 ∧
    (networkCalls s.text env).head? =
      some (ApiCall.predict { text := s.text }) ∧
    (∀ req : CopingRequest, ApiCall.coping req ∈ networkCalls s.text env →
      ∃ data, (analyzeJournalEntry s.text env.predict).2 =
        Except.ok data) := by
  rcases h1 : analyzeResult env.predict with msg | data
  · refine ⟨?_, ?_, ?_⟩ <;>
      simp [networkCalls, handleAnalyzeEvents_analyzeFail s.text env msg h h1,
        callOf, ApiCall.isPredict]
  · rcases h2 : copingResult env.coping with msg | coping
    · refine ⟨?_, ?_, fun req hreq => ⟨data, by
        rw [analyzeJournalEntry_snd, h1]⟩⟩ <;>
        simp [networkCalls,
          handleAnalyzeEvents_copingFail s.text env data msg h h1 h2,
          callOf, ApiCall.isPredict]
    · refine ⟨?_, ?_, fun req hreq => ⟨data, by
        rw [analyzeJournalEntry_snd, h1]⟩⟩ <;>
        simp [networkCalls,
          handleAnalyzeEvents_bothOk s.text env data coping h h1 h2,
          callOf, ApiCall.isPredict]

/-- Witness for predict_called_once_before_coping at the sample state and
the environment where both calls succeed. -/
theorem predict_called_once_before_coping_witness :
    (networkCalls sampleState.text happyEnv).countP ApiCall.isPredict = 1 ∧
    (networkCalls sampleState.text happyEnv).head? =
      some (ApiCall.predict { text := sampleState.text }) ∧
    (∀ req : CopingRequest,
      ApiCall.coping req ∈ networkCalls sampleState.text happyEnv →
      ∃ data, (analyzeJournalEntry sampleState.text happyEnv.predict).2 =
        Except.ok data) :=
  predict_called_once_before_coping sampleState happyEnv (by decide)

/-- C2: when /predict answers with a non-success status, the submit
operation makes no /coping call, ends with the error state set, the
result state null and the loading flag false. -/
theorem predict_failure_state (s : UIState) (env : Env)
    (r : HttpResponse AnalyzeResponse) (h : jsTrim s.text ≠ "")
    (hp : env.predict = .response r) (hok : r.ok = false) :
    (∃ msg, (handleAnalyze s env).error = some msg) ∧
    (handleAnalyze s env).result = none ∧
    (handleAnalyze s env).loading = false ∧
    (∀ req : CopingRequest, ApiCall.coping req ∉ networkCalls s.text env) := by
  obtain ⟨m, h1⟩ : ∃ m, analyzeResult env.predict = Except.error m := by
    rw [hp]; simp [analyzeResult, hok]
  refine ⟨⟨errorDisplayMessage m, ?_⟩, ?_, ?_, ?_⟩ <;>
    simp [handleAnalyze, networkCalls,
      handleAnalyzeEvents_analyzeFail s.text env m h h1,
      runEvents, applyEvent, callOf]

/-- Witness for predict_failure_state at the sample state and the
environment whose /predict answers 500. -/
theorem predict_failure_state_witness :
    (∃ msg, (handleAnalyze sampleState predictFailEnv).error = some msg) ∧
    (handleAnalyze sampleState predictFailEnv).result = none ∧
    (handleAnalyze sampleState predictFailEnv).loading = false ∧
    (∀ req : CopingRequest,
      ApiCall.coping req ∉ networkCalls sampleState.text predictFailEnv) :=
  predict_failure_state sampleState predictFailEnv badPredictResponse
    (by decide) rfl (by decide)

/-- C3: when /predict succeeds and /coping answers with a non-success
status, the result state holds the analyze response, the copingText state
stays empty and the error state is set. -/
theorem coping_failure_state (s : UIState) (env : Env)
    (rp : HttpResponse AnalyzeResponse) (rc : HttpResponse CopingResponse)
    (h : jsTrim s.text ≠ "")
    (hp : env.predict = .response rp) (hpok : rp.ok = true)
    (hc : env.coping = .response rc) (hcok : rc.ok = false) :
    (handleAnalyze s env).result = some rp.json ∧
    (handleAnalyze s env).copingText = "" ∧
    (∃ msg, (handleAnalyze s env).error = some msg) := by
  have h1 : analyzeResult env.predict = Except.ok rp.json := by
    rw [hp]; simp [analyzeResult, hpok]
  have h2 : copingResult env.coping =
      Except.error "Failed to get coping suggestions" := by
    rw [hc]; simp [copingResult, hcok]
  refine ⟨?_, ?_,
    ⟨errorDisplayMessage "Failed to get coping suggestions", ?_⟩⟩ <;>
    simp [handleAnalyze,
      handleAnalyzeEvents_copingFail s.text env rp.json _ h h1 h2,
      runEvents, applyEvent]

/-- Witness for coping_failure_state at the sample state and the
environment whose /coping answers 503. -/
theorem coping_failure_state_witness :
    (handleAnalyze sampleState copingFailEnv).result =
      some okPredictResponse.json ∧
    (handleAnalyze sampleState copingFailEnv).copingText = "" ∧
    (∃ msg, (handleAnalyze sampleState copingFailEnv).error = some msg) :=
  coping_failure_state sampleState copingFailEnv okPredictResponse
    badCopingResponse (by decide) rfl (by decide) rfl (by decide)

/-- C4: when both calls succeed, the result state holds the analyze
response, the copingText state holds the coping_text of the coping
response and the error state is null. -/
theorem submit_success_state (s : UIState) (env : Env)
    (rp : HttpResponse AnalyzeResponse) (rc : HttpResponse CopingResponse)
    (h : jsTrim s.text ≠ "")
    (hp : env.predict = .response rp) (hpok : rp.ok = true)
    (hc : env.coping = .response rc) (hcok : rc.ok = true) :
    (handleAnalyze s env).result = some rp.json ∧
    (handleAnalyze s env).copingText = rc.json.coping_text ∧
    (handleAnalyze s env).error = none := by
  have h1 : analyzeResult env.predict = Except.ok rp.json := by
    rw [hp]; simp [analyzeResult, hpok]
  have h2 : copingResult env.coping = Except.ok rc.json := by
    rw [hc]; simp [copingResult, hcok]
  refine ⟨?_, ?_, ?_⟩ <;>
    simp [handleAnalyze,
      handleAnalyzeEvents_bothOk s.text env rp.json rc.json h h1 h2,
      runEvents, applyEvent]

/-- Witness for submit_success_state at the sample state and the
environment where both calls succeed. -/
theorem submit_success_state_witness :
    (handleAnalyze sampleState happyEnv).result =
      some okPredictResponse.json ∧
    (handleAnalyze sampleState happyEnv).copingText =
      okCopingResponse.json.coping_text ∧
    (handleAnalyze sampleState happyEnv).error = none :=
  submit_success_state sampleState happyEnv okPredictResponse
    okCopingResponse (by decide) rfl (by decide) rfl (by decide)

/-- C8: for every submission that passes validation, the first five
events are the three clears, setLoading true and then the first network
call, so the loading flag is raised before any call; and the final state
has loading false whatever the outcomes of the two calls. -/
theorem loading_flag_lifecycle (s : UIState) (env : Env)
    (h : jsTrim s.text ≠ "") :
    (handleAnalyzeEvents s.text env).take 5 =
      [Event.setError none, Event.setResult none, Event.setCopingText "",
       Event.setLoading true,
       Event.call (ApiCall.predict { text := s.text })] ∧
    (handleAnalyze s env).loading = false := by
  rcases h1 : analyzeResult env.predict with msg | data
  · constructor <;>
      simp [handleAnalyze, handleAnalyzeEvents_analyzeFail s.text env msg h h1,
        runEvents, applyEvent]
  · rcases h2 : copingResult env.coping with msg | coping
    · constructor <;>
        simp [handleAnalyze,
          handleAnalyzeEvents_copingFail s.text env data msg h h1 h2,
          runEvents, applyEvent]
    · constructor <;>
        simp [handleAnalyze,
          handleAnalyzeEvents_bothOk s.text env data coping h h1 h2,
          runEvents, applyEvent]

/-- Witness for loading_flag_lifecycle at the sample state and the
environment where both calls succeed. -/
theorem loading_flag_lifecycle_witness :
    (handleAnalyzeEvents sampleState.text happyEnv).take 5 =
      [Event.setError none, Event.setResult none, Event.setCopingText "",
       Event.setLoading true,
       Event.call (ApiCall.predict { text := sampleState.text })] ∧
    (handleAnalyze sampleState happyEnv).loading = false :=
  loading_flag_lifecycle sampleState happyEnv (by decide)

/-- C9: the submit operation never changes the text or page state: on
every path the final state keeps the text and page of the initial state. -/
theorem submit_preserves_text_page (s : UIState) (env : Env) :
    (handleAnalyze s env).text = s.text ∧
    (handleAnalyze s env).page = s.page := by
  by_cases h : jsTrim s.text = ""
  · constructor <;>
      simp [handleAnalyze, handleAnalyzeEvents_emptyText s.text env h,
        runEvents, applyEvent]
  · rcases h1 : analyzeResult env.predict with msg | data
    · constructor <;>
        simp [handleAnalyze,
          handleAnalyzeEvents_analyzeFail s.text env msg h h1,
          runEvents, applyEvent]
    · rcases h2 : copingResult env.coping with msg | coping
      · constructor <;>
          simp [handleAnalyze,
            handleAnalyzeEvents_copingFail s.text env data msg h h1 h2,
            runEvents, applyEvent]
      · constructor <;>
          simp [handleAnalyze,
            handleAnalyzeEvents_bothOk s.text env data coping h h1 h2,
            runEvents, applyEvent]

/-- C10: every /coping call a submission issues carries as journal the
exact untrimmed submitted text, and as primary_emotion and stress_level
the verbatim fields of the analyze response just received. -/
theorem coping_request_fields (s : UIState) (env : Env)
    (req : CopingRequest)
    (h : ApiCall.coping req ∈ networkCalls s.text env) :
    req.journal = s.text ∧
    (∃ data, (analyzeJournalEntry s.text env.predict).2 = Except.ok data ∧
      req.primary_emotion = data.primary_emotion ∧
      req.stress_level = data.stress_level) := by
  by_cases ht : jsTrim s.text = ""
  · rw [networkCalls, handleAnalyzeEvents_emptyText s.text env ht] at h
    simp [callOf] at h
  · rcases h1 : analyzeResult env.predict with msg | data
    · rw [networkCalls,
        handleAnalyzeEvents_analyzeFail s.text env msg ht h1] at h
      simp [callOf] at h
    · have hreq : req =
          ⟨s.text, data.primary_emotion, data.stress_level⟩ := by
        rcases h2 : copingResult env.coping with msg | coping
        · rw [networkCalls,
            handleAnalyzeEvents_copingFail s.text env data msg ht h1 h2] at h
          simpa [callOf] using h
        · rw [networkCalls,
            handleAnalyzeEvents_bothOk s.text env data coping ht h1 h2] at h
          simpa [callOf] using h
      exact ⟨by rw [hreq], data, by rw [analyzeJournalEntry_snd, h1],
        by rw [hreq], by rw [hreq]⟩

/-- Witness for coping_request_fields at the sample state, the
environment where both calls succeed and the request that submission
issues. -/
theorem coping_request_fields_witness :
    (⟨sampleState.text, "anxiety", "high"⟩ : CopingRequest).journal =
      sampleState.text ∧
    (∃ data,
      (analyzeJournalEntry sampleState.text happyEnv.predict).2 =
        Except.ok data ∧
      (⟨sampleState.text, "anxiety", "high"⟩ :
        CopingRequest).primary_emotion = data.primary_emotion ∧
      (⟨sampleState.text, "anxiety", "high"⟩ :
        CopingRequest).stress_level = data.stress_level) :=
  coping_request_fields sampleState happyEnv
    ⟨sampleState.text, "anxiety", "high"⟩ (by decide)
